import Mathlib

/-!
A shallow embedding of the Democrit-EVM pool bot (poolbot.py): the vault-check
attestation signer and its JSON-RPC service.  External collaborators (the EVM
chain reachable through web3, and the GSP backend reached through the
VaultChecker subclass) are modelled as environment records holding the answers
their RPC calls would return at the time of the call.  Calls into those
collaborators are additionally logged as events, so that claims of the form
"operation X is never invoked here" become statements about the event trace.
-/

set_option autoImplicit false

namespace Poolbot

/-- Machine addresses (EVM accounts and contracts) are modelled as naturals. -/
abbrev Address := Nat

/-- Byte strings are modelled as lists of naturals (each entry one byte). -/
abbrev Bytes := List Nat

/-- The EIP712 name expected from the contract (poolbot.py line 23). -/
def EIP712_NAME : String := "Democrit"

/-- The EIP712 version expected from the contract (poolbot.py line 24). -/
def EIP712_VERSION : String := "1"

/-- A JSON value, as far as the return shapes of the RPC methods need. -/
inductive Json where
  | num (n : Nat)
  | str (s : String)
  | obj (fields : List (String × Json))

/-- Looks up a key in a JSON object field list (dict access in Python). -/
def findField : List (String × Json) → String → Option Json
  | [], _ => none
  | (k, v) :: rest, key => if k = key then some v else findField rest key

/-- One entry of an EIP712 type description, a dict with name and type. -/
structure TypeField where
  name : String
  type : String
deriving DecidableEq

/-- The EIP712 domain dict built by Signer.sign (poolbot.py lines 110-115). -/
structure DomainData where
  name : String
  version : String
  chainId : Nat
  verifyingContract : Address
deriving DecidableEq

/-- The VaultCheck message dict built by Signer.sign (lines 130-134). -/
structure VaultCheckData where
  vaultId : Nat
  checkpoint : Bytes
  nonce : Nat
deriving DecidableEq

/-- The full structured-data dict passed to encode_structured_data
(poolbot.py lines 109-135): domain, primary type, type schema, message. -/
structure StructuredMessage where
  domain : DomainData
  primaryType : String
  types : List (String × List TypeField)
  message : VaultCheckData
deriving DecidableEq

/-- Events recording the external calls the pool bot makes; used to state
that certain operations never reach certain collaborators. -/
inductive Event where
  | permissionCheck (account : Address) (operator : Address)
  | nonceFetch (operator : Address)
  | signCall (vaultId : Nat) (checkpoint : String)
  | backendCheck (controller : Address) (vaultId : Nat)
  | gspStateQuery
deriving DecidableEq

/-- The state of the EVM chain at the moment of one RPC interaction, as seen
through web3: the chain id, the answers of the Democrit contract at the
configured address (vm, config, EIP712_NAME, EIP712_VERSION, signatureNonce),
the answers of the resolved config contract (gameId) and of the resolved
VaultManager contract (hasAccountPermission, account). -/
structure Chain where
  chainId : Nat
  vmAddr : Address
  configAddr : Address
  gameId : String
  contractName : String
  contractVersion : String
  hasAccountPermission : Address → Address → Bool
  vmAccount : Address
  signatureNonce : Address → Nat

/-- The GSP backend behind the VaultChecker subclass at the moment of one
call: the answer of check (valid flag and optional checkpoint hex string) and
the state dict returned by getGspState. -/
structure Gsp where
  check : Address → Nat → Bool × Option String
  state : List (String × Json)

/-- Model of the external key-to-address derivation done by
eth_account.Account.from_key; the derivation itself is elliptic-curve
arithmetic, out of scope per the specification, so it is modelled as an
arbitrary fixed computable function into the 160-bit address space. -/
def addressOfKey (key : Nat) : Address := key % 2 ^ 160

/-- A local account as produced by eth_account.Account.from_key. -/
structure Account where
  key : Nat
  address : Address
deriving DecidableEq

/-- eth_account.Account.from_key, modelled via addressOfKey. -/
def Account.from_key (key : Nat) : Account :=
  { key := key, address := addressOfKey key }

/-- Model of eth_account.messages.encode_structured_data.  The real function
produces the EIP712 typed-data encoding of the dict; the encoding is
injective on the structured data (up to hash collisions, which the protocol
assumes away), so it is modelled as the structured message itself. -/
def encode_structured_data (m : StructuredMessage) : StructuredMessage := m

/-- Serialises a string into model bytes, length-prefixed. -/
def encodeStr (s : String) : Bytes := s.length :: s.data.map Char.toNat

/-- Serialises one EIP712 type field into model bytes. -/
def encodeTypeField (f : TypeField) : Bytes := encodeStr f.name ++ encodeStr f.type

/-- Serialises an EIP712 type field list into model bytes. -/
def encodeFieldList (l : List TypeField) : Bytes :=
  l.length :: l.foldr (fun f acc => encodeTypeField f ++ acc) []

/-- Serialises the EIP712 type schema into model bytes. -/
def encodeTypes (ts : List (String × List TypeField)) : Bytes :=
  ts.length :: ts.foldr (fun t acc => encodeStr t.1 ++ encodeFieldList t.2 ++ acc) []

/-- Serialises a whole structured message into model bytes; the nonce is the
final entry, after everything else. -/
def encodeMsgBytes (m : StructuredMessage) : Bytes :=
  encodeStr m.domain.name ++ encodeStr m.domain.version
    ++ [m.domain.chainId, m.domain.verifyingContract]
    ++ encodeStr m.primaryType ++ encodeTypes m.types
    ++ [m.message.vaultId, m.message.checkpoint.length] ++ m.message.checkpoint
    ++ [m.message.nonce]

/-- The result of eth_account signing: an object carrying signature bytes. -/
structure SignedMessage where
  signature : Bytes
deriving DecidableEq

/-- Model of eth_account signing (account.sign_message over the encoded
structured data).  ECDSA with deterministic nonces is a function of the key
and the message digest and is collision-free in the message under the
protocol assumptions; it is modelled as the key followed by the serialised
message. -/
def Account.sign_message (a : Account) (m : StructuredMessage) : SignedMessage :=
  { signature := a.key :: encodeMsgBytes m }

/-- Value of one hexadecimal digit, none for a non-hex character. -/
def hexDigitVal (c : Char) : Option Nat :=
  if ('0') ≤ c ∧ c ≤ ('9') then some (c.toNat - ('0').toNat)
  else if ('a') ≤ c ∧ c ≤ ('f') then some (c.toNat - ('a').toNat + 10)
  else if ('A') ≤ c ∧ c ≤ ('F') then some (c.toNat - ('A').toNat + 10)
  else none

/-- Decodes an even-length run of hex digits into bytes, two digits each. -/
def hexPairs : List Char → Option Bytes
  | [] => some []
  | [_] => none
  | a :: b :: rest =>
    match hexDigitVal a, hexDigitVal b, hexPairs rest with
    | some hi, some lo, some r => some ((16 * hi + lo) :: r)
    | _, _, _ => none

/-- Strips a leading 0x or 0X from a character list, if present. -/
def stripHexPrefix : List Char → List Char
  | ('0') :: ('x') :: rest => rest
  | ('0') :: ('X') :: rest => rest
  | l => l

/-- Model of w3.to_bytes (hexstr=...): strips an optional 0x prefix, pads an
odd-length digit run with a leading zero, and decodes hex pairs; none models
the ValueError raised on a malformed hex string. -/
def to_bytes (hexstr : String) : Option Bytes :=
  let body := stripHexPrefix hexstr.data
  let padded := if body.length % 2 = 1 then ('0') :: body else body
  hexPairs padded

/-- Lowercase hex character of a nibble value. -/
def nibbleChar (n : Nat) : Char :=
  if n < 10 then Char.ofNat (('0').toNat + n) else Char.ofNat (('a').toNat + n - 10)

/-- Model of bytes.hex (): lowercase hex, two digits per byte, no prefix. -/
def bytesToHex : Bytes → String
  | [] => ""
  | b :: rest => String.mk [nibbleChar (b / 16), nibbleChar (b % 16)] ++ bytesToHex rest

/-- Error message raised at poolbot.py line 89. -/
def eipMismatchMsg : String := "EIP712 name and/or version mismatch"

/-- Error message raised at poolbot.py lines 93-94 (operator interpolated). -/
def permissionMsg (operator : Address) : String :=
  ("The given key cannot sign for operator ") ++ toString operator

/-- Error message raised at poolbot.py line 165. -/
def invalidVaultMsg : String := "the requested vault is not valid"

/-- Error message raised at poolbot.py line 160. -/
def gameIdMismatchMsg : String := "game ID mismatch"

/-- The fields a constructed Signer instance stores and later uses
(poolbot.py lines 69-96): the chain id read at construction, the derived
account, the operator, the Democrit contract address, the game id read from
the config contract, and the controller read from the vault manager. -/
structure Signer where
  chainId : Nat
  account : Account
  operator : Address
  contractAddr : Address
  gameId : String
  controller : Address
deriving DecidableEq

/-- Signer.__init__ (poolbot.py lines 69-96): reads the chain id, derives the
account from the key, resolves the vault manager and config contracts, reads
the game id, checks the EIP712 name and version against the expected
constants, checks signing permission with the vault manager, and reads the
controller account.  Returns the constructed state or the raised error,
together with the trace of permission-check events. -/
def Signer.init (env : Chain) (contractAddr : Address) (operator : Address)
    (key : Nat) : Except String Signer × List Event :=
  let chainId := env.chainId
  let account := Account.from_key key
  let gameId := env.gameId
  let contractName := env.contractName
  let contractVersion := env.contractVersion
  if contractName ≠ EIP712_NAME ∨ contractVersion ≠ EIP712_VERSION then
    (Except.error eipMismatchMsg, [])
  else if env.hasAccountPermission account.address operator = false then
    (Except.error (permissionMsg operator),
     [Event.permissionCheck account.address operator])
  else
    (Except.ok { chainId := chainId, account := account, operator := operator,
                 contractAddr := contractAddr, gameId := gameId,
                 controller := env.vmAccount },
     [Event.permissionCheck account.address operator])

/-- The structured-data dict built inside Signer.sign (poolbot.py lines
109-135), for a given decoded checkpoint and nonce. -/
def Signer.vaultCheckMessage (s : Signer) (vaultId : Nat) (checkpoint : Bytes)
    (nonce : Nat) : StructuredMessage :=
  { domain := { name := EIP712_NAME, version := EIP712_VERSION,
                chainId := s.chainId, verifyingContract := s.contractAddr },
    primaryType := ("VaultCheck"),
    types := [ (("EIP712Domain"),
                 [ { name := ("name"), type := ("string") },
                   { name := ("version"), type := ("string") },
                   { name := ("chainId"), type := ("uint256") },
                   { name := ("verifyingContract"), type := ("address") } ]),
               (("VaultCheck"),
                 [ { name := ("vaultId"), type := ("uint256") },
                   { name := ("checkpoint"), type := ("bytes32") },
                   { name := ("nonce"), type := ("uint256") } ]) ],
    message := { vaultId := vaultId, checkpoint := checkpoint, nonce := nonce } }

/-- Signer.sign (poolbot.py lines 98-140): fetches the current nonce for the
operator from the contract, builds the structured message with the checkpoint
decoded from its hex string, encodes it and signs it with the account key.
The chain argument is the chain state at the moment of this call.  Returns
the signature bytes, or the propagated decoding error, with the event
trace of the call. -/
def Signer.sign (s : Signer) (env : Chain) (vaultId : Nat)
    (checkpoint : String) : Except String Bytes × List Event :=
  let nonce := env.signatureNonce s.operator
  match to_bytes checkpoint with
  | none => (Except.error ("invalid hex string"), [Event.nonceFetch s.operator])
  | some checkpointBytes =>
    let msg := s.vaultCheckMessage vaultId checkpointBytes nonce
    let encoded := encode_structured_data msg
    let signed := s.account.sign_message encoded
    (Except.ok signed.signature, [Event.nonceFetch s.operator])

/-- The state a constructed VaultCheckServer stores (poolbot.py lines
151-153): the signer.  The checker object is a handle to the external GSP,
whose time-varying behaviour is modelled by the Gsp argument passed to each
operation. -/
structure VaultCheckServer where
  signer : Signer
deriving DecidableEq

/-- VaultCheckServer.__init__ up to the closure definitions (poolbot.py
lines 151-160): queries the GSP state once and compares its gameid entry
with the game id stored by the signer; a missing key or a mismatch raises
and aborts construction. -/
def VaultCheckServer.init (gsp : Gsp) (signer : Signer) :
    Except String VaultCheckServer :=
  match findField gsp.state ("gameid") with
  | none => Except.error ("KeyError: gameid")
  | some (Json.str g) =>
    if g ≠ signer.gameId then Except.error gameIdMismatchMsg
    else Except.ok { signer := signer }
  | some _ => Except.error gameIdMismatchMsg

/-- The signVaultCheck closure (poolbot.py lines 162-174): asks the checker
whether the vault exists, raises if it does not or has no checkpoint, and
otherwise signs and returns the vaultcheck record with the hex signature.
Returns the JSON result or error, the (unchanged) server state, and the
event trace of the call. -/
def VaultCheckServer.signVaultCheck (srv : VaultCheckServer) (gsp : Gsp)
    (env : Chain) (vaultId : Nat) :
    Except String Json × VaultCheckServer × List Event :=
  let checkEv := Event.backendCheck srv.signer.controller vaultId
  match gsp.check srv.signer.controller vaultId with
  | (true, some checkpoint) =>
    let (res, signEvs) := srv.signer.sign env vaultId checkpoint
    match res with
    | Except.error e =>
      (Except.error e, srv, checkEv :: Event.signCall vaultId checkpoint :: signEvs)
    | Except.ok signature =>
      (Except.ok (Json.obj
         [ (("vaultcheck"), Json.obj
             [ (("vaultId"), Json.num vaultId),
               (("checkpoint"), Json.str checkpoint) ]),
           (("signature"), Json.str (bytesToHex signature)) ]),
       srv, checkEv :: Event.signCall vaultId checkpoint :: signEvs)
  | _ => (Except.error invalidVaultMsg, srv, [checkEv])

/-- The getInfo closure (poolbot.py lines 176-191): queries the GSP state and
returns it together with the democrit and pool diagnostic records.  Returns
the JSON value, the (unchanged) server state, and the event trace. -/
def VaultCheckServer.getInfo (srv : VaultCheckServer) (gsp : Gsp) :
    Json × VaultCheckServer × List Event :=
  let g := gsp.state
  (Json.obj
     [ (("gsp"), Json.obj g),
       (("democrit"), Json.obj
          [ (("chainid"), Json.num srv.signer.chainId),
            (("gameid"), Json.str srv.signer.gameId),
            (("contract"), Json.num srv.signer.contractAddr),
            (("controller"), Json.num srv.signer.controller) ]),
       (("pool"), Json.obj
          [ (("operator"), Json.num srv.signer.operator),
            (("signer"), Json.num srv.signer.account.address) ]) ],
   srv, [Event.gspStateQuery])

/-! ### Concrete sample values used by the witness theorems -/

/-- A sample chain on which all the construction checks pass. -/
def env0 : Chain :=
  { chainId := 1, vmAddr := 2, configAddr := 3, gameId := ("tn"),
    contractName := ("Democrit"), contractVersion := ("1"),
    hasAccountPermission := fun _ _ => true, vmAccount := 7,
    signatureNonce := fun _ => 5 }

/-- The sample chain after its signature nonce advanced to 8. -/
def env8 : Chain := { env0 with signatureNonce := fun _ => 8 }

/-- A chain like the sample chain but with a different vault-manager account
and all permissions revoked; the nonce is unchanged. -/
def envAlt : Chain :=
  { env0 with vmAccount := 9, hasAccountPermission := fun _ _ => false }

/-- The signer state that Signer.init builds on the sample chain with
contract address 10, operator 20 and key 99. -/
def signer0 : Signer :=
  { chainId := 1, account := Account.from_key 99, operator := 20,
    contractAddr := 10, gameId := ("tn"), controller := 7 }

/-- A sample GSP that knows vault 42 at checkpoint 0xab. -/
def gsp0 : Gsp :=
  { check := fun _ vaultId => if vaultId = 42 then (true, some ("0xab"))
                              else (false, none),
    state := [(("gameid"), Json.str ("tn"))] }

/-- The sample server wrapping the sample signer. -/
def srv0 : VaultCheckServer := { signer := signer0 }

/-! ### Claims -/

/-- C1: every call sign (vaultId, checkpoint) encodes and signs the
structured message whose domain is exactly (name Democrit, version 1,
chainId read at Signer construction, verifyingContract the contract
address), whose primary type is VaultCheck with fields exactly
(vaultId uint256, checkpoint bytes32, nonce uint256), whose checkpoint field
is the raw bytes decoded from the hex-string argument, and whose nonce is
the value that signatureNonce (operator) returns on the chain at the moment
of that same call. -/
theorem sign_signs_exact_vaultCheck_message
    (envC envS : Chain) (contractAddr operator key : Nat) (s : Signer)
    (vaultId : Nat) (checkpoint : String) (checkpointBytes : Bytes)
    (hinit : (Signer.init envC contractAddr operator key).1 = Except.ok s)
    (hcp : to_bytes checkpoint = some checkpointBytes) :
    (s.sign envS vaultId checkpoint).1 =
      Except.ok ((Account.sign_message (Account.from_key key)
        (encode_structured_data
          { domain := { name := ("Democrit"), version := ("1"),
                        chainId := envC.chainId,
                        verifyingContract := contractAddr },
            primaryType := ("VaultCheck"),
            types := [ (("EIP712Domain"),
                         [ { name := ("name"), type := ("string") },
                           { name := ("version"), type := ("string") },
                           { name := ("chainId"), type := ("uint256") },
                           { name := ("verifyingContract"),
                             type := ("address") } ]),
                       (("VaultCheck"),
                         [ { name := ("vaultId"), type := ("uint256") },
                           { name := ("checkpoint"), type := ("bytes32") },
                           { name := ("nonce"), type := ("uint256") } ]) ],
            message := { vaultId := vaultId, checkpoint := checkpointBytes,
                         nonce := envS.signatureNonce operator } })).signature) := by
  simp only [Signer.init] at hinit
  split at hinit
  · simp at hinit
  · split at hinit
    · simp at hinit
    · simp only [Except.ok.injEq] at hinit
      subst hinit
      simp [Signer.sign, hcp, Signer.vaultCheckMessage, EIP712_NAME,
            EIP712_VERSION]

/-- Witness for C1: on the sample chain, signing vault 42 at checkpoint 0xab
with the nonce at 8 produces exactly the signature of the expected message. -/
theorem sign_signs_exact_vaultCheck_message_witness :
    (Signer.init env0 10 20 99).1 = Except.ok signer0 ∧
    to_bytes ("0xab") = some [171] ∧
    (signer0.sign env8 42 ("0xab")).1 =
      Except.ok ((Account.sign_message (Account.from_key 99)
        (encode_structured_data
          { domain := { name := ("Democrit"), version := ("1"),
                        chainId := env0.chainId, verifyingContract := 10 },
            primaryType := ("VaultCheck"),
            types := [ (("EIP712Domain"),
                         [ { name := ("name"), type := ("string") },
                           { name := ("version"), type := ("string") },
                           { name := ("chainId"), type := ("uint256") },
                           { name := ("verifyingContract"),
                             type := ("address") } ]),
                       (("VaultCheck"),
                         [ { name := ("vaultId"), type := ("uint256") },
                           { name := ("checkpoint"), type := ("bytes32") },
                           { name := ("nonce"), type := ("uint256") } ]) ],
            message := { vaultId := 42, checkpoint := [171],
                         nonce := env8.signatureNonce 20 } })).signature) :=
  ⟨rfl, rfl,
   sign_signs_exact_vaultCheck_message env0 env8 10 20 99 signer0 42
     ("0xab") [171] rfl rfl⟩

/-- The two construction error messages of Signer.init are distinct, so a
permission failure can never be mistaken for a protocol mismatch. -/
theorem permissionMsg_ne_eipMismatchMsg (operator : Address) :
    permissionMsg operator ≠ eipMismatchMsg := by
  intro h
  have hlen := congrArg String.length h
  rw [permissionMsg, eipMismatchMsg, String.length_append] at hlen
  have h1 : ("The given key cannot sign for operator ").length = 39 := by decide
  have h2 : ("EIP712 name and/or version mismatch").length = 35 := by decide
  omega

/-- C2: whenever the backend check reports the vault as non-existent or with
a null checkpoint, signVaultCheck fails with the invalid-resource error, its
trace is exactly the one backend check, and in particular no sign call and
no nonce fetch happens. -/
theorem signVaultCheck_invalid_resource
    (srv : VaultCheckServer) (gsp : Gsp) (env : Chain) (vaultId : Nat)
    (h : (gsp.check srv.signer.controller vaultId).1 = false ∨
         (gsp.check srv.signer.controller vaultId).2 = none) :
    (srv.signVaultCheck gsp env vaultId).1 = Except.error invalidVaultMsg ∧
    (srv.signVaultCheck gsp env vaultId).2.2 =
      [Event.backendCheck srv.signer.controller vaultId] ∧
    (∀ v c, Event.signCall v c ∉ (srv.signVaultCheck gsp env vaultId).2.2) ∧
    (∀ o, Event.nonceFetch o ∉ (srv.signVaultCheck gsp env vaultId).2.2) := by
  simp only [VaultCheckServer.signVaultCheck]
  split
  · rename_i heq
    rw [heq] at h
    simp at h
  · simp

/-- Witness for C2: on the sample server, vault 7 is unknown to the backend,
so the request fails with no sign call and no nonce fetch. -/
theorem signVaultCheck_invalid_resource_witness :
    ((gsp0.check srv0.signer.controller 7).1 = false ∨
     (gsp0.check srv0.signer.controller 7).2 = none) ∧
    ((srv0.signVaultCheck gsp0 env0 7).1 = Except.error invalidVaultMsg ∧
     (srv0.signVaultCheck gsp0 env0 7).2.2 =
       [Event.backendCheck srv0.signer.controller 7] ∧
     (∀ v c, Event.signCall v c ∉ (srv0.signVaultCheck gsp0 env0 7).2.2) ∧
     (∀ o, Event.nonceFetch o ∉ (srv0.signVaultCheck gsp0 env0 7).2.2)) :=
  ⟨Or.inl rfl, signVaultCheck_invalid_resource srv0 gsp0 env0 7 (Or.inl rfl)⟩

/-- C3: Signer construction raises the protocol-mismatch error exactly when
the EIP712 name or version the contract declares differs from the expected
constants; when both match and the permission check passes, construction
returns the fully initialised signer. -/
theorem signer_init_protocol_mismatch_iff
    (env : Chain) (contractAddr operator key : Nat) :
    ((Signer.init env contractAddr operator key).1 =
        Except.error eipMismatchMsg ↔
      (env.contractName ≠ EIP712_NAME ∨ env.contractVersion ≠ EIP712_VERSION)) ∧
    (env.contractName = EIP712_NAME → env.contractVersion = EIP712_VERSION →
      env.hasAccountPermission (Account.from_key key).address operator = true →
      (Signer.init env contractAddr operator key).1 =
        Except.ok { chainId := env.chainId, account := Account.from_key key,
                    operator := operator, contractAddr := contractAddr,
                    gameId := env.gameId, controller := env.vmAccount }) := by
  constructor
  · by_cases h1 : env.contractName = EIP712_NAME
    · by_cases h2 : env.contractVersion = EIP712_VERSION
      · by_cases hp : env.hasAccountPermission (Account.from_key key).address
            operator = false
        · simp [Signer.init, h1, h2, hp,
                permissionMsg_ne_eipMismatchMsg operator]
        · simp [Signer.init, h1, h2, hp]
      · simp [Signer.init, h2]
    · simp [Signer.init, h1]
  · intro h1 h2 hperm
    simp [Signer.init, h1, h2, hperm]

/-- Witness for C3: on the sample chain, no protocol-mismatch error is
raised and construction succeeds with the expected signer state. -/
theorem signer_init_protocol_mismatch_iff_witness :
    (((Signer.init env0 10 20 99).1 = Except.error eipMismatchMsg ↔
        (env0.contractName ≠ EIP712_NAME ∨
         env0.contractVersion ≠ EIP712_VERSION)) ∧
     (env0.contractName = EIP712_NAME → env0.contractVersion = EIP712_VERSION →
       env0.hasAccountPermission (Account.from_key 99).address 20 = true →
       (Signer.init env0 10 20 99).1 =
         Except.ok { chainId := env0.chainId, account := Account.from_key 99,
                     operator := 20, contractAddr := 10,
                     gameId := env0.gameId, controller := env0.vmAccount })) :=
  signer_init_protocol_mismatch_iff env0 10 20 99

/-- C4: once the protocol check has passed, Signer construction consults the
vault manager permission exactly once (its trace is exactly that single
permission check); a denied permission makes construction fail with the
permission error; and sign never repeats the check: its result ignores the
permission answer entirely and its trace holds no permission-check event. -/
theorem permission_checked_at_construction_only
    (env : Chain) (contractAddr operator key : Nat)
    (hname : env.contractName = EIP712_NAME)
    (hver : env.contractVersion = EIP712_VERSION) :
    (Signer.init env contractAddr operator key).2 =
      [Event.permissionCheck (Account.from_key key).address operator] ∧
    (env.hasAccountPermission (Account.from_key key).address operator = false →
      (Signer.init env contractAddr operator key).1 =
        Except.error (permissionMsg operator)) ∧
    (∀ (s : Signer) (envS : Chain) (f : Address → Address → Bool)
        (vaultId : Nat) (checkpoint : String),
      s.sign { envS with hasAccountPermission := f } vaultId checkpoint =
        s.sign envS vaultId checkpoint) ∧
    (∀ (s : Signer) (envS : Chain) (vaultId : Nat) (checkpoint : String)
        (a b : Address),
      Event.permissionCheck a b ∉ (s.sign envS vaultId checkpoint).2) := by
  refine ⟨?_, ?_, ?_, ?_⟩
  · by_cases hp : env.hasAccountPermission (Account.from_key key).address
        operator = false
    · simp [Signer.init, hname, hver, hp]
    · simp [Signer.init, hname, hver, hp]
  · intro hperm
    simp [Signer.init, hname, hver, hperm]
  · intro s envS f vaultId checkpoint
    rfl
  · intro s envS vaultId checkpoint a b
    simp only [Signer.sign]
    cases to_bytes checkpoint <;> simp

/-- Witness for C4: on the sample chain the construction trace is exactly one
permission check, and sign for the sample signer ignores and never repeats
the permission query. -/
theorem permission_checked_at_construction_only_witness :
    ((Signer.init env0 10 20 99).2 =
       [Event.permissionCheck (Account.from_key 99).address 20] ∧
     (env0.hasAccountPermission (Account.from_key 99).address 20 = false →
       (Signer.init env0 10 20 99).1 = Except.error (permissionMsg 20)) ∧
     (∀ (s : Signer) (envS : Chain) (f : Address → Address → Bool)
         (vaultId : Nat) (checkpoint : String),
       s.sign { envS with hasAccountPermission := f } vaultId checkpoint =
         s.sign envS vaultId checkpoint) ∧
     (∀ (s : Signer) (envS : Chain) (vaultId : Nat) (checkpoint : String)
         (a b : Address),
       Event.permissionCheck a b ∉ (s.sign envS vaultId checkpoint).2)) :=
  permission_checked_at_construction_only env0 10 20 99 rfl rfl

/-- C5: VaultCheckServer construction compares the gameid field of the GSP
state with the game id the signer read from the config contract; a mismatch
raises the game-ID error and no server value is produced, while equality
yields the constructed server carrying the signer. -/
theorem server_init_gameid_check
    (gsp : Gsp) (signer : Signer) (g : String)
    (hfield : findField gsp.state ("gameid") = some (Json.str g)) :
    (g ≠ signer.gameId →
      VaultCheckServer.init gsp signer = Except.error gameIdMismatchMsg) ∧
    (g = signer.gameId →
      VaultCheckServer.init gsp signer = Except.ok { signer := signer }) := by
  unfold VaultCheckServer.init
  rw [hfield]
  constructor
  · intro h; simp [h]
  · intro h; simp [h]

/-- Witness for C5: the sample GSP reports the same game id as the sample
signer, so construction of the sample server succeeds. -/
theorem server_init_gameid_check_witness :
    findField gsp0.state ("gameid") = some (Json.str ("tn")) ∧
    (("tn") = signer0.gameId →
      VaultCheckServer.init gsp0 signer0 = Except.ok { signer := signer0 }) :=
  ⟨rfl, (server_init_gameid_check gsp0 signer0 ("tn") rfl).2⟩

/-- C6: two sequential sign calls for the same vault and checkpoint, during
which the contract reports two different nonces, build messages that agree
on the domain, the primary type, the type schema, the vault id and the
checkpoint and differ exactly in the nonce field, and the two resulting
signatures are different. -/
theorem different_nonces_different_signatures
    (s : Signer) (env1 env2 : Chain) (vaultId : Nat) (checkpoint : String)
    (checkpointBytes : Bytes)
    (hcp : to_bytes checkpoint = some checkpointBytes)
    (hne : env1.signatureNonce s.operator ≠ env2.signatureNonce s.operator) :
    ((s.vaultCheckMessage vaultId checkpointBytes
        (env1.signatureNonce s.operator)).domain =
      (s.vaultCheckMessage vaultId checkpointBytes
        (env2.signatureNonce s.operator)).domain ∧
     (s.vaultCheckMessage vaultId checkpointBytes
        (env1.signatureNonce s.operator)).primaryType =
      (s.vaultCheckMessage vaultId checkpointBytes
        (env2.signatureNonce s.operator)).primaryType ∧
     (s.vaultCheckMessage vaultId checkpointBytes
        (env1.signatureNonce s.operator)).types =
      (s.vaultCheckMessage vaultId checkpointBytes
        (env2.signatureNonce s.operator)).types ∧
     (s.vaultCheckMessage vaultId checkpointBytes
        (env1.signatureNonce s.operator)).message.vaultId =
      (s.vaultCheckMessage vaultId checkpointBytes
        (env2.signatureNonce s.operator)).message.vaultId ∧
     (s.vaultCheckMessage vaultId checkpointBytes
        (env1.signatureNonce s.operator)).message.checkpoint =
      (s.vaultCheckMessage vaultId checkpointBytes
        (env2.signatureNonce s.operator)).message.checkpoint ∧
     (s.vaultCheckMessage vaultId checkpointBytes
        (env1.signatureNonce s.operator)).message.nonce ≠
      (s.vaultCheckMessage vaultId checkpointBytes
        (env2.signatureNonce s.operator)).message.nonce) ∧
    (s.sign env1 vaultId checkpoint).1 ≠ (s.sign env2 vaultId checkpoint).1 := by
  refine ⟨⟨rfl, rfl, rfl, rfl, rfl, hne⟩, ?_⟩
  intro h
  simp [Signer.sign, hcp, Account.sign_message, encode_structured_data,
        Signer.vaultCheckMessage, encodeMsgBytes] at h
  exact hne h

/-- Witness for C6: on the sample chain before and after the nonce advanced
from 5 to 8, signing vault 42 at checkpoint 0xab yields messages differing
exactly in the nonce and two different signatures. -/
theorem different_nonces_different_signatures_witness :
    to_bytes ("0xab") = some [171] ∧
    env0.signatureNonce signer0.operator ≠ env8.signatureNonce signer0.operator ∧
    (signer0.vaultCheckMessage 42 [171]
        (env0.signatureNonce signer0.operator)).message.nonce ≠
      (signer0.vaultCheckMessage 42 [171]
        (env8.signatureNonce signer0.operator)).message.nonce ∧
    (signer0.sign env0 42 ("0xab")).1 ≠ (signer0.sign env8 42 ("0xab")).1 :=
  ⟨rfl, by decide,
   (different_nonces_different_signatures signer0 env0 env8 42 ("0xab") [171]
      rfl (by decide)).1.2.2.2.2.2,
   (different_nonces_different_signatures signer0 env0 env8 42 ("0xab") [171]
      rfl (by decide)).2⟩

/-- Counterexample to C7 as stated: at the sample inputs the request for
vault 42 succeeds, and the vault-check record of the result stores the
requested id under the key vaultId; it holds no key resourceId at all, so
the claimed response shape with a resourceId field is wrong. -/
theorem signVaultCheck_no_resourceId_key :
    (srv0.signVaultCheck gsp0 env0 42).1 =
      Except.ok (Json.obj
        [ (("vaultcheck"), Json.obj
            [ (("vaultId"), Json.num 42),
              (("checkpoint"), Json.str ("0xab")) ]),
          (("signature"), Json.str (bytesToHex
            (signer0.account.sign_message (encode_structured_data
              (signer0.vaultCheckMessage 42 [171] 5))).signature)) ]) ∧
    findField [ (("vaultId"), Json.num 42),
                (("checkpoint"), Json.str ("0xab")) ] ("resourceId") = none :=
  ⟨rfl, rfl⟩

/-- C7 (amended): on success the signvaultcheck result is exactly the object
whose vaultcheck record holds the requested id under the key vaultId and the
backend-reported checkpoint hex string under the key checkpoint, and whose
signature entry is the signature bytes encoded as a hex string. -/
theorem signVaultCheck_success_shape
    (srv : VaultCheckServer) (gsp : Gsp) (env : Chain) (vaultId : Nat)
    (checkpoint : String) (checkpointBytes : Bytes)
    (hcheck : gsp.check srv.signer.controller vaultId = (true, some checkpoint))
    (hcp : to_bytes checkpoint = some checkpointBytes) :
    (srv.signVaultCheck gsp env vaultId).1 =
      Except.ok (Json.obj
        [ (("vaultcheck"), Json.obj
            [ (("vaultId"), Json.num vaultId),
              (("checkpoint"), Json.str checkpoint) ]),
          (("signature"), Json.str (bytesToHex
            (srv.signer.account.sign_message (encode_structured_data
              (srv.signer.vaultCheckMessage vaultId checkpointBytes
                (env.signatureNonce srv.signer.operator)))).signature)) ]) := by
  simp [VaultCheckServer.signVaultCheck, hcheck, Signer.sign, hcp]

/-- Witness for C7 (amended): the concrete successful response for vault 42
on the sample server. -/
theorem signVaultCheck_success_shape_witness :
    gsp0.check srv0.signer.controller 42 = (true, some ("0xab")) ∧
    to_bytes ("0xab") = some [171] ∧
    (srv0.signVaultCheck gsp0 env0 42).1 =
      Except.ok (Json.obj
        [ (("vaultcheck"), Json.obj
            [ (("vaultId"), Json.num 42),
              (("checkpoint"), Json.str ("0xab")) ]),
          (("signature"), Json.str (bytesToHex
            (srv0.signer.account.sign_message (encode_structured_data
              (srv0.signer.vaultCheckMessage 42 [171]
                (env0.signatureNonce srv0.signer.operator)))).signature)) ]) :=
  ⟨rfl, rfl,
   signVaultCheck_success_shape srv0 gsp0 env0 42 ("0xab") [171] rfl rfl⟩

/-- C8: getInfo performs exactly one GSP state query and nothing else: it
never runs the backend existence check, never calls sign, fetches no nonce,
checks no permission, always returns its value without error, and leaves the
server state unchanged. -/
theorem getInfo_pure_read (srv : VaultCheckServer) (gsp : Gsp) :
    (srv.getInfo gsp).2.1 = srv ∧
    (srv.getInfo gsp).2.2 = [Event.gspStateQuery] ∧
    (∀ c v, Event.backendCheck c v ∉ (srv.getInfo gsp).2.2) ∧
    (∀ v c, Event.signCall v c ∉ (srv.getInfo gsp).2.2) ∧
    (∀ o, Event.nonceFetch o ∉ (srv.getInfo gsp).2.2) ∧
    (∀ a b, Event.permissionCheck a b ∉ (srv.getInfo gsp).2.2) := by
  refine ⟨rfl, rfl, ?_, ?_, ?_, ?_⟩ <;>
    · intros
      simp [VaultCheckServer.getInfo]

/-- Witness for C8: the instantiation on the sample server and GSP. -/
theorem getInfo_pure_read_witness :
    (srv0.getInfo gsp0).2.1 = srv0 ∧
    (srv0.getInfo gsp0).2.2 = [Event.gspStateQuery] ∧
    (∀ c v, Event.backendCheck c v ∉ (srv0.getInfo gsp0).2.2) ∧
    (∀ v c, Event.signCall v c ∉ (srv0.getInfo gsp0).2.2) ∧
    (∀ o, Event.nonceFetch o ∉ (srv0.getInfo gsp0).2.2) ∧
    (∀ a b, Event.permissionCheck a b ∉ (srv0.getInfo gsp0).2.2) :=
  getInfo_pure_read srv0 gsp0

/-- C9: signVaultCheck reaches the signer exactly when the backend check
returns the valid flag true together with a non-null checkpoint; whenever
that conjunction fails, including a true flag with a null checkpoint or a
false flag with a checkpoint, the request errors and no nonce is fetched. -/
theorem signVaultCheck_sign_guard
    (srv : VaultCheckServer) (gsp : Gsp) (env : Chain) (vaultId : Nat) :
    ((∃ v c, Event.signCall v c ∈ (srv.signVaultCheck gsp env vaultId).2.2) ↔
      ((gsp.check srv.signer.controller vaultId).1 = true ∧
       (gsp.check srv.signer.controller vaultId).2 ≠ none)) ∧
    (¬ ((gsp.check srv.signer.controller vaultId).1 = true ∧
        (gsp.check srv.signer.controller vaultId).2 ≠ none) →
      ((srv.signVaultCheck gsp env vaultId).1 = Except.error invalidVaultMsg ∧
       ∀ o, Event.nonceFetch o ∉ (srv.signVaultCheck gsp env vaultId).2.2)) := by
  simp only [VaultCheckServer.signVaultCheck]
  split
  · rename_i checkpoint heq
    have hrhs : (gsp.check srv.signer.controller vaultId).1 = true ∧
        (gsp.check srv.signer.controller vaultId).2 ≠ none := by
      rw [heq]; simp
    refine ⟨iff_of_true ⟨vaultId, checkpoint, ?_⟩ hrhs,
            fun hcon => absurd hrhs hcon⟩
    simp only [Signer.sign]
    cases hb : to_bytes checkpoint <;> simp
  · rename_i hno
    have hrhs : ¬ ((gsp.check srv.signer.controller vaultId).1 = true ∧
        (gsp.check srv.signer.controller vaultId).2 ≠ none) := by
      rintro ⟨h1, h2⟩
      rcases hc : (gsp.check srv.signer.controller vaultId).2 with _ | c
      · exact h2 hc
      · refine hno c ?_
        have hp : gsp.check srv.signer.controller vaultId =
            ((gsp.check srv.signer.controller vaultId).1,
             (gsp.check srv.signer.controller vaultId).2) := rfl
        rw [hp, h1, hc]
    refine ⟨iff_of_false ?_ hrhs, fun _ => ⟨rfl, fun o => by simp⟩⟩
    rintro ⟨v, c, hmem⟩
    simp at hmem

/-- Witness for C9: the instantiation on the sample server for vault 42. -/
theorem signVaultCheck_sign_guard_witness :
    ((∃ v c, Event.signCall v c ∈ (srv0.signVaultCheck gsp0 env0 42).2.2) ↔
      ((gsp0.check srv0.signer.controller 42).1 = true ∧
       (gsp0.check srv0.signer.controller 42).2 ≠ none)) ∧
    (¬ ((gsp0.check srv0.signer.controller 42).1 = true ∧
        (gsp0.check srv0.signer.controller 42).2 ≠ none) →
      ((srv0.signVaultCheck gsp0 env0 42).1 = Except.error invalidVaultMsg ∧
       ∀ o, Event.nonceFetch o ∉ (srv0.signVaultCheck gsp0 env0 42).2.2)) :=
  signVaultCheck_sign_guard srv0 gsp0 env0 42

/-- C10: sign is deterministic: two invocations on signers agreeing in their
construction-time fields (chain id, account, operator, contract address),
with the contract reporting the same nonce, build identical messages and
return identical signature bytes and traces. -/
theorem sign_deterministic
    (s1 s2 : Signer) (env1 env2 : Chain) (vaultId : Nat) (checkpoint : String)
    (checkpointBytes : Bytes)
    (hchain : s1.chainId = s2.chainId) (hacc : s1.account = s2.account)
    (hop : s1.operator = s2.operator)
    (haddr : s1.contractAddr = s2.contractAddr)
    (hnonce : env1.signatureNonce s1.operator =
      env2.signatureNonce s2.operator) :
    s1.vaultCheckMessage vaultId checkpointBytes
        (env1.signatureNonce s1.operator) =
      s2.vaultCheckMessage vaultId checkpointBytes
        (env2.signatureNonce s2.operator) ∧
    s1.sign env1 vaultId checkpoint = s2.sign env2 vaultId checkpoint := by
  rw [hop] at hnonce
  constructor
  · simp [Signer.vaultCheckMessage, hchain, haddr, hop, hnonce]
  · simp only [Signer.sign]
    cases hb : to_bytes checkpoint <;>
      simp [Signer.vaultCheckMessage, hchain, hacc, hop, haddr, hnonce]

/-- Witness for C10: two sample chains differing in the vault-manager
account and the permission answer but agreeing on the nonce give the same
message and signature for the sample signer. -/
theorem sign_deterministic_witness :
    env0.signatureNonce signer0.operator =
      envAlt.signatureNonce signer0.operator ∧
    signer0.vaultCheckMessage 42 [171] (env0.signatureNonce signer0.operator) =
      signer0.vaultCheckMessage 42 [171]
        (envAlt.signatureNonce signer0.operator) ∧
    signer0.sign env0 42 ("0xab") = signer0.sign envAlt 42 ("0xab") :=
  ⟨rfl,
   (sign_deterministic signer0 signer0 env0 envAlt 42 ("0xab") [171]
      rfl rfl rfl rfl rfl).1,
   (sign_deterministic signer0 signer0 env0 envAlt 42 ("0xab") [171]
      rfl rfl rfl rfl rfl).2⟩

end Poolbot
